import Mathlib

/-!
Shallow embedding of the tool layer of `src/src/tools.ts` and the facade
`src/src/api.ts` of the bambai-ai-agent repository.

The schedule tool's `execute` dispatches on the string field `when.type`
of the validated trigger object, so the trigger is embedded as a record
with a string tag and optional payload fields, exactly as the untyped
dispatch in the source sees it.  The ambient agent context
(`agentContext.getStore()`) is an `Option Agent`; the agent's
`schedule` method is an oracle that either succeeds or throws, and the
embedding returns, next to the tool result, the list of calls made to
that entry point.  Thrown JS errors become `Except.error`.
-/

/-- A character-list starts-with test (used to embed JS `String.includes`). -/
def startsWithChars : List Char → List Char → Bool
  | [], _ => true
  | _ :: _, [] => false
  | p :: ps, c :: cs => p = c && startsWithChars ps cs

/-- A character-list substring test (used to embed JS `String.includes`). -/
def containsChars (pat : List Char) : List Char → Bool
  | [] => pat.isEmpty
  | c :: rest => startsWithChars pat (c :: rest) || containsChars pat rest

/-- JS `s.includes(pat)`: substring containment on strings. -/
def strContains (s pat : String) : Bool :=
  containsChars pat.data s.data

/-- JS truthiness of an optional string: `undefined` and `""` are falsy. -/
def jsTruthy : Option String → Bool
  | none => false
  | some s => s != ""

/-- The trigger payload handed to `agent.schedule`: `when.date` and
`when.cron` are strings, `when.delayInSeconds` is a number. -/
inductive TriggerValue
  | str (s : String)
  | num (n : Nat)
deriving DecidableEq, Repr

/-- Rendering of `input` inside a JS template literal;
a missing value renders as `undefined`. -/
def renderInput : Option TriggerValue → String
  | none => "undefined"
  | some (.str s) => s
  | some (.num n) => toString n

/-- The validated `when` argument of the schedule tool, as the string-tag
dispatch in `scheduleTask.execute` sees it (tools.ts lines 57-67). -/
structure ScheduleWhen where
  type : String
  date : Option String := none
  delayInSeconds : Option Nat := none
  cron : Option String := none
deriving DecidableEq, Repr

/-- Errors thrown (not returned) by `scheduleTask.execute`:
`new Error("No agent found")` and `throwError("not a valid schedule input")`. -/
inductive ScheduleError
  | noActiveAgent
  | invalidSchedule (msg : String)
deriving DecidableEq, Repr

/-- One call made to the agent context's `schedule` entry point. -/
structure ScheduleCall where
  input : Option TriggerValue
  actionName : String
  payload : String
deriving DecidableEq, Repr

/-- The agent context object.  Its `schedule` method may throw; the oracle
returns `none` on success and `some e` when it throws an error rendering
as `e` inside the caught template literal. -/
structure Agent where
  schedule : Option TriggerValue → String → String → Option String

/-- The `input` computed by the conditional chain of tools.ts lines 60-67
for the three recognized non-`no-schedule` tags. -/
def triggerInput (w : ScheduleWhen) : Option TriggerValue :=
  if w.type = "scheduled" then w.date.map .str
  else if w.type = "delayed" then w.delayInSeconds.map .num
  else w.cron.map .str

/-- `scheduleTask.execute` (tools.ts lines 48-75).  Returns the tool result
(or the thrown error) together with the list of calls made to
`agent.schedule`. -/
def scheduleTask.execute (agent : Option Agent) (w : ScheduleWhen)
    (description : String) : Except ScheduleError String × List ScheduleCall :=
  match agent with
  | none => (.error .noActiveAgent, [])
  | some ag =>
    if w.type = "no-schedule" then
      (.ok "Not a valid schedule input", [])
    else if w.type = "scheduled" ∨ w.type = "delayed" ∨ w.type = "cron" then
      let input := triggerInput w
      match ag.schedule input "executeTask" description with
      | some err =>
        (.ok ("Error scheduling task: " ++ err), [⟨input, "executeTask", description⟩])
      | none =>
        (.ok ("Task scheduled for type \"" ++ w.type ++ "\" : " ++ renderInput input),
          [⟨input, "executeTask", description⟩])
    else
      (.error (.invalidSchedule "not a valid schedule input"), [])

/-- JSON values, as returned by the facade's `get` (`res.data`). -/
inductive Json
  | null
  | bool (b : Bool)
  | num (n : Int)
  | str (s : String)
  | arr (elems : List Json)
  | obj (fields : List (String × Json))
deriving Repr

/-- Escaping of one character inside a JSON string literal. -/
def jsonEscapeChar (c : Char) : String :=
  if c = '"' then "\\\""
  else if c = '\\' then "\\\\"
  else String.singleton c

mutual

/-- `JSON.stringify` on the embedded JSON values. -/
def Json.stringify : Json → String
  | .null => "null"
  | .bool true => "true"
  | .bool false => "false"
  | .num n => toString n
  | .str s => "\"" ++ String.join (s.data.map jsonEscapeChar) ++ "\""
  | .arr elems => "[" ++ Json.stringifyElems elems ++ "]"
  | .obj fields => "\x7b" ++ Json.stringifyFields fields ++ "\x7d"

/-- Comma-separated serialization of array elements. -/
def Json.stringifyElems : List Json → String
  | [] => ""
  | [x] => Json.stringify x
  | x :: y :: rest => Json.stringify x ++ "," ++ Json.stringifyElems (y :: rest)

/-- Comma-separated serialization of object fields. -/
def Json.stringifyFields : List (String × Json) → String
  | [] => ""
  | [f] => "\"" ++ String.join (f.1.data.map jsonEscapeChar) ++ "\":" ++ Json.stringify f.2
  | f :: g :: rest =>
    "\"" ++ String.join (f.1.data.map jsonEscapeChar) ++ "\":" ++ Json.stringify f.2 ++ "," ++
      Json.stringifyFields (g :: rest)

end

/-- The domain API facade (`bambaiApiClient.get`): an oracle from the
request path to either the JSON body or a thrown failure. -/
def Facade : Type := String → Except String Json

/-- Characters `encodeURIComponent` leaves unescaped. -/
def isUnreservedURIChar (c : Char) : Bool :=
  ('A' ≤ c && c ≤ 'Z') || ('a' ≤ c && c ≤ 'z') || ('0' ≤ c && c ≤ '9') ||
    c = '-' || c = '_' || c = '.' || c = '!' || c = '~' || c = '*' ||
    c = '\'' || c = '(' || c = ')'

/-- Uppercase hexadecimal digit for `n < 16`. -/
def hexDigit (n : Nat) : Char :=
  if n < 10 then Char.ofNat ('0'.toNat + n) else Char.ofNat ('A'.toNat + n - 10)

/-- UTF-8 encoding of one character, as a list of byte values. -/
def utf8Bytes (c : Char) : List Nat :=
  let n := c.toNat
  if n < 0x80 then [n]
  else if n < 0x800 then [0xC0 + n / 64, 0x80 + n % 64]
  else if n < 0x10000 then [0xE0 + n / 4096, 0x80 + n / 64 % 64, 0x80 + n % 64]
  else [0xF0 + n / 262144, 0x80 + n / 4096 % 64, 0x80 + n / 64 % 64, 0x80 + n % 64]

/-- `%`-encoding of one byte value. -/
def percentEncodeByte (b : Nat) : String :=
  "%" ++ String.singleton (hexDigit (b / 16)) ++ String.singleton (hexDigit (b % 16))

/-- JS `encodeURIComponent`. -/
def encodeURIComponent (s : String) : String :=
  String.join (s.data.map fun c =>
    if isUnreservedURIChar c then String.singleton c
    else String.join ((utf8Bytes c).map percentEncodeByte))

/-- `getUserPersonalData.execute` (tools.ts lines 81-91). -/
def getUserPersonalData.execute (get : Facade) : String :=
  match get "me" with
  | .ok d => d.stringify
  | .error _ => "error"

/-- `getSchools.execute` (tools.ts lines 97-107). -/
def getSchools.execute (get : Facade) : String :=
  match get "schools?page=0&perPage=30" with
  | .ok d => d.stringify
  | .error _ => "error"

/-- `getClasses.execute` (tools.ts lines 113-123). -/
def getClasses.execute (get : Facade) : String :=
  match get "classes" with
  | .ok d => d.stringify
  | .error _ => "error"

/-- `getSubjects.execute` (tools.ts lines 129-139). -/
def getSubjects.execute (get : Facade) : String :=
  match get "subjects" with
  | .ok d => d.stringify
  | .error _ => "error"

/-- The URL built by `getStudents.execute` (tools.ts lines 164-176). -/
def getStudents.url (schoolIds classIds : Option String) : String :=
  let url := "active-students"
  let url := if jsTruthy schoolIds then url ++ "?schoolIds=" ++ schoolIds.getD "" else url
  if jsTruthy classIds then
    if strContains url "?" then url ++ "&classIds=" ++ classIds.getD ""
    else url ++ "?classIds=" ++ classIds.getD ""
  else url

/-- `getStudents.execute` (tools.ts lines 162-186). -/
def getStudents.execute (get : Facade) (schoolIds classIds : Option String) : String :=
  match get (getStudents.url schoolIds classIds) with
  | .ok d => d.stringify
  | .error _ => "error"

/-- The URL built by `searchStudent.execute` (tools.ts lines 209-212). -/
def searchStudent.url (name : String) (schoolIds : Option String) : String :=
  let url := "/students/typeahead?searchText=" ++ encodeURIComponent name
  if jsTruthy schoolIds then url ++ "?schoolIds=" ++ schoolIds.getD "" else url

/-- `searchStudent.execute` (tools.ts lines 205-222). -/
def searchStudent.execute (get : Facade) (name : String) (schoolIds : Option String) : String :=
  match get (searchStudent.url name schoolIds) with
  | .ok d => d.stringify
  | .error _ => "error"

/-- `getStudent.execute` (tools.ts lines 239-250). -/
def getStudent.execute (get : Facade) (studentId : String) : String :=
  match get ("student/" ++ studentId) with
  | .ok d => d.stringify
  | .error _ => "error"

/-- The exported `tools` registry (tools.ts lines 257-268): each entry is
the tool's name together with whether its descriptor carries an inline
`execute` function. -/
def toolsRegistry : List (String × Bool) :=
  [("getUserPersonalData", true),
   ("getWeatherInformation", false),
   ("getLocalTime", true),
   ("scheduleTask", true),
   ("getClasses", true),
   ("getSubjects", true),
   ("getSchools", true),
   ("getStudents", true),
   ("searchStudent", true),
   ("getStudent", true)]

/-- The names keyed by the exported `executions` table (tools.ts
lines 275-280). -/
def executionsNames : List String := ["getWeatherInformation"]

/-- A decision arriving on the confirmation boundary. -/
inductive Decision
  | approve
  | deny
deriving DecidableEq, Repr

/-- Errors of the confirmation gate (spec sections 4.2 and 7). -/
inductive GateError
  | alreadyResolved
  | missingExecutor
  | unknownPending
  | executorFailed (msg : String)
deriving DecidableEq, Repr

/-- Modelled from the spec: the confirmation gate's pending-confirmation
store (spec sections 3 and 4.2).  The gate implementation lives in the
repository's server module, which is not present under `src/`; only the
`executions` executor table it consumes is in `tools.ts`.  Each pending
entry is a pending id with the tool name and its validated arguments. -/
structure GateState where
  pending : List (Nat × String × String)
  resolved : List Nat

/-- Lookup of a pending confirmation by id. -/
def lookupPending (st : GateState) (pid : Nat) : Option (String × String) :=
  (st.pending.find? fun e => e.1 == pid).map fun e => e.2

/-- Modelled from the spec: the confirmation gate's
`resolve(pendingId, decision)` operation (spec section 4.2); the
implementation is not under `src/`.  A pending id may be resolved at most
once; a second attempt fails with `AlreadyResolvedError`.  Approve looks
up the executor table keyed by tool name and invokes it with the stored
validated arguments, failing with `MissingExecutorError` when no entry
exists; the first resolution succeeds or fails per the executor outcome.
Deny returns a canonical rejection result without invoking anything. -/
def resolveGate (table : String → Option (String → Except String String))
    (st : GateState) (pid : Nat) (d : Decision) :
    Except GateError String × GateState :=
  if pid ∈ st.resolved then (.error .alreadyResolved, st)
  else
    match lookupPending st pid with
    | none => (.error .unknownPending, st)
    | some (toolName, args) =>
      let st' : GateState := ⟨st.pending, pid :: st.resolved⟩
      match d with
      | .deny => (.ok "rejected", st')
      | .approve =>
        match table toolName with
        | none => (.error .missingExecutor, st')
        | some f =>
          match f args with
          | .ok r => (.ok r, st')
          | .error e => (.error (.executorFailed e), st')

/-- An agent whose `schedule` method always succeeds. -/
def demoAgent : Agent := ⟨fun _ _ _ => none⟩

/-- An agent whose `schedule` method always throws. -/
def throwingAgent : Agent := ⟨fun _ _ _ => some "Error: boom"⟩

/-- An executor table holding only the confirmation-gated weather tool
(the `executions` export, tools.ts lines 275-280). -/
def demoTable : String → Option (String → Except String String) :=
  fun n =>
    if n = "getWeatherInformation" then
      some fun city => .ok ("The weather in " ++ city ++ " is sunny")
    else none

/-- A gate state with one unresolved pending confirmation. -/
def demoState : GateState := ⟨[(1, "getWeatherInformation", "London")], []⟩

/-- C1: for every tool in the exported `tools` registry, the descriptor
carries an inline `execute` function iff there is no entry with the same
name in the separate `executions` table: no tool has both, none has
neither. -/
theorem tools_executor_iff_no_confirmation_entry :
    ∀ e ∈ toolsRegistry, e.2 = true ↔ e.1 ∉ executionsNames := by
  decide

theorem tools_executor_iff_no_confirmation_entry_witness :
    (("getWeatherInformation", false) : String × Bool).2 = true ↔
      "getWeatherInformation" ∉ executionsNames :=
  tools_executor_iff_no_confirmation_entry ("getWeatherInformation", false) (by decide)

/-- C2: on a `no-schedule` trigger (with an agent context present), the
resolver makes no call to the agent's `schedule` entry point and returns
exactly the string "Not a valid schedule input". -/
theorem noSchedule_returns_literal_without_call (ag : Agent) (w : ScheduleWhen)
    (desc : String) (h : w.type = "no-schedule") :
    scheduleTask.execute (some ag) w desc = (.ok "Not a valid schedule input", []) := by
  simp [scheduleTask.execute, h]

theorem noSchedule_returns_literal_without_call_witness :
    scheduleTask.execute (some demoAgent) ⟨"no-schedule", none, none, none⟩ "probe"
      = (.ok "Not a valid schedule input", []) :=
  noSchedule_returns_literal_without_call demoAgent ⟨"no-schedule", none, none, none⟩ "probe" rfl

/-- C5: with no active agent context, the resolver throws
(`new Error("No agent found")`, the `NoActiveAgentError`) instead of
returning a result, and schedules nothing. -/
theorem no_agent_context_throws (w : ScheduleWhen) (desc : String) :
    scheduleTask.execute none w desc = (.error .noActiveAgent, []) :=
  rfl

/-- C9: the agent-context check happens before trigger classification:
with no active agent context the tool throws for every trigger, the
`no-schedule` one included, and the informational "Not a valid schedule
input" result is only ever returned when an agent context is present. -/
theorem agent_check_precedes_classification (ag : Option Agent) (w : ScheduleWhen)
    (desc : String) :
    (ag = none → scheduleTask.execute ag w desc = (.error .noActiveAgent, [])) ∧
    ((scheduleTask.execute ag w desc).1 = .ok "Not a valid schedule input" → ag ≠ none) := by
  constructor
  · intro h
    subst h
    rfl
  · intro h hn
    subst hn
    simp [scheduleTask.execute] at h

theorem agent_check_precedes_classification_witness :
    (scheduleTask.execute none ⟨"no-schedule", none, none, none⟩ "probe"
        = (.error .noActiveAgent, [])) ∧
    (some demoAgent ≠ (none : Option Agent)) :=
  ⟨(agent_check_precedes_classification none ⟨"no-schedule", none, none, none⟩ "probe").1 rfl,
   (agent_check_precedes_classification (some demoAgent)
      ⟨"no-schedule", none, none, none⟩ "probe").2 rfl⟩

/-- C6: a trigger whose tag is none of `no-schedule`, `scheduled`,
`delayed`, `cron` makes the resolver throw the `InvalidScheduleError`
(`throwError("not a valid schedule input")`); it neither returns a
success result nor calls the scheduling entry point. -/
theorem unrecognized_tag_throws (ag : Agent) (w : ScheduleWhen) (desc : String)
    (h1 : w.type ≠ "no-schedule") (h2 : w.type ≠ "scheduled")
    (h3 : w.type ≠ "delayed") (h4 : w.type ≠ "cron") :
    scheduleTask.execute (some ag) w desc
      = (.error (.invalidSchedule "not a valid schedule input"), []) := by
  simp [scheduleTask.execute, h1, h2, h3, h4]

theorem unrecognized_tag_throws_witness :
    scheduleTask.execute (some demoAgent) ⟨"weekly", none, none, none⟩ "probe"
      = (.error (.invalidSchedule "not a valid schedule input"), []) :=
  unrecognized_tag_throws demoAgent ⟨"weekly", none, none, none⟩ "probe"
    (by decide) (by decide) (by decide) (by decide)

/-- C4: on a recognized non-`no-schedule` trigger, when the agent's
scheduling call throws, the resolver catches it and returns a string
describing the error as the tool result; the exception does not
propagate (the outcome is `Except.ok`, not `Except.error`). -/
theorem schedule_throw_caught (ag : Agent) (w : ScheduleWhen) (desc e : String)
    (hty : w.type = "scheduled" ∨ w.type = "delayed" ∨ w.type = "cron")
    (hthrow : ag.schedule (triggerInput w) "executeTask" desc = some e) :
    scheduleTask.execute (some ag) w desc
      = (.ok ("Error scheduling task: " ++ e),
         [⟨triggerInput w, "executeTask", desc⟩]) := by
  have hns : w.type ≠ "no-schedule" := by
    rcases hty with h | h | h <;> simp [h]
  simp [scheduleTask.execute, hns, hty, hthrow]

theorem schedule_throw_caught_witness :
    scheduleTask.execute (some throwingAgent) ⟨"delayed", none, some 30, none⟩ "later"
      = (.ok "Error scheduling task: Error: boom",
         [⟨some (.num 30), "executeTask", "later"⟩]) :=
  schedule_throw_caught throwingAgent ⟨"delayed", none, some 30, none⟩ "later" "Error: boom"
    (Or.inr (Or.inl rfl)) rfl

/-- C3 counterexample: at the concrete scheduled trigger with date
"2025-01-01T00:00:00Z" and a succeeding agent, the returned string is
the confirmation embedding the trigger kind and the literal date, and it
does not contain the action name "executeTask", contrary to the claim
that the returned string embeds that action name. -/
theorem scheduled_result_lacks_action_name :
    (scheduleTask.execute (some demoAgent)
        ⟨"scheduled", some "2025-01-01T00:00:00Z", none, none⟩ "remind").1
      = .ok "Task scheduled for type \"scheduled\" : 2025-01-01T00:00:00Z" ∧
    strContains "Task scheduled for type \"scheduled\" : 2025-01-01T00:00:00Z"
        "executeTask" = false := by
  constructor
  · rfl
  · decide

/-- C3 (amended): on a `scheduled` trigger with date `d` (and a
succeeding schedule call), the resolver calls the agent's schedule entry
point with trigger value `d` and action name "executeTask", and the
string it returns embeds the literal date `d` and the trigger kind
"scheduled"; the action name appears in the schedule call, not in the
returned string. -/
theorem scheduled_calls_entry_point_and_embeds_date (ag : Agent) (d desc : String)
    (hok : ag.schedule (some (.str d)) "executeTask" desc = none) :
    scheduleTask.execute (some ag) ⟨"scheduled", some d, none, none⟩ desc
      = (.ok ("Task scheduled for type \"scheduled\" : " ++ d),
         [⟨some (.str d), "executeTask", desc⟩]) := by
  simp [scheduleTask.execute, triggerInput, renderInput, hok]

theorem scheduled_calls_entry_point_and_embeds_date_witness :
    scheduleTask.execute (some demoAgent)
        ⟨"scheduled", some "2025-01-01T00:00:00Z", none, none⟩ "remind"
      = (.ok "Task scheduled for type \"scheduled\" : 2025-01-01T00:00:00Z",
         [⟨some (.str "2025-01-01T00:00:00Z"), "executeTask", "remind"⟩]) :=
  scheduled_calls_entry_point_and_embeds_date demoAgent "2025-01-01T00:00:00Z" "remind" rfl

/-- C7: every domain-record tool returns exactly "error" when the
underlying facade GET call fails (it never raises past its own
boundary), and on success returns the JSON response body serialized to
a string. -/
theorem domain_tools_error_sentinel (get : Facade)
    (sIds cIds sid : Option String) (name stuId : String) :
    (∀ e, get "me" = .error e → getUserPersonalData.execute get = "error") ∧
    (∀ d, get "me" = .ok d → getUserPersonalData.execute get = d.stringify) ∧
    (∀ e, get "schools?page=0&perPage=30" = .error e → getSchools.execute get = "error") ∧
    (∀ d, get "schools?page=0&perPage=30" = .ok d → getSchools.execute get = d.stringify) ∧
    (∀ e, get "classes" = .error e → getClasses.execute get = "error") ∧
    (∀ d, get "classes" = .ok d → getClasses.execute get = d.stringify) ∧
    (∀ e, get "subjects" = .error e → getSubjects.execute get = "error") ∧
    (∀ d, get "subjects" = .ok d → getSubjects.execute get = d.stringify) ∧
    (∀ e, get (getStudents.url sIds cIds) = .error e →
      getStudents.execute get sIds cIds = "error") ∧
    (∀ d, get (getStudents.url sIds cIds) = .ok d →
      getStudents.execute get sIds cIds = d.stringify) ∧
    (∀ e, get (searchStudent.url name sid) = .error e →
      searchStudent.execute get name sid = "error") ∧
    (∀ d, get (searchStudent.url name sid) = .ok d →
      searchStudent.execute get name sid = d.stringify) ∧
    (∀ e, get ("student/" ++ stuId) = .error e → getStudent.execute get stuId = "error") ∧
    (∀ d, get ("student/" ++ stuId) = .ok d → getStudent.execute get stuId = d.stringify) := by
  refine ⟨fun e h => ?_, fun d h => ?_, fun e h => ?_, fun d h => ?_, fun e h => ?_,
    fun d h => ?_, fun e h => ?_, fun d h => ?_, fun e h => ?_, fun d h => ?_,
    fun e h => ?_, fun d h => ?_, fun e h => ?_, fun d h => ?_⟩ <;>
  simp [getUserPersonalData.execute, getSchools.execute, getClasses.execute,
    getSubjects.execute, getStudents.execute, searchStudent.execute,
    getStudent.execute, h]

theorem domain_tools_error_sentinel_witness :
    getUserPersonalData.execute (fun _ => .error "network down") = "error" ∧
    getStudents.execute (fun _ => .error "network down") (some "1") (some "2,3") = "error" ∧
    getUserPersonalData.execute (fun _ => .ok (.obj [("a", .num 1)]))
      = Json.stringify (.obj [("a", .num 1)]) :=
  ⟨(domain_tools_error_sentinel (fun _ => .error "network down")
      (some "1") (some "2,3") (some "4") "amy" "id7").1 "network down" rfl,
   (domain_tools_error_sentinel (fun _ => .error "network down")
      (some "1") (some "2,3") (some "4") "amy" "id7").2.2.2.2.2.2.2.2.1 "network down" rfl,
   (domain_tools_error_sentinel (fun _ => .ok (.obj [("a", .num 1)]))
      (some "1") (some "2,3") (some "4") "amy" "id7").2.1 (.obj [("a", .num 1)]) rfl⟩

/-- The prefix built for the students URL always contains a question
mark, whatever the school-id filter appended to it. -/
theorem strContains_students_qmark (s : String) :
    strContains ("active-students?schoolIds=" ++ s) "?" = true := by
  cases s with
  | mk data =>
    show containsChars _ _ = true
    simp [String.data, containsChars, startsWithChars]

/-- C10: when `schoolIds` is provided (non-empty), `searchStudent`
appends a second "?" for the schoolIds parameter after the existing
"?searchText=" query, whereas `getStudents` joins its second filter to
the first with "&". -/
theorem searchStudent_second_question_mark (name s sc cl : String)
    (hs : s ≠ "") (hsc : sc ≠ "") (hcl : cl ≠ "") :
    searchStudent.url name (some s)
        = "/students/typeahead?searchText=" ++ encodeURIComponent name
            ++ "?schoolIds=" ++ s ∧
    getStudents.url (some sc) (some cl)
        = "active-students?schoolIds=" ++ sc ++ "&classIds=" ++ cl := by
  constructor
  · simp [searchStudent.url, jsTruthy, hs]
  · have hq := strContains_students_qmark sc
    simp [getStudents.url, jsTruthy, hsc, hcl, hq]

theorem searchStudent_second_question_mark_witness :
    searchStudent.url "amy" (some "5")
        = "/students/typeahead?searchText=" ++ encodeURIComponent "amy"
            ++ "?schoolIds=" ++ "5" ∧
    getStudents.url (some "1") (some "2,3")
        = "active-students?schoolIds=" ++ "1" ++ "&classIds=" ++ "2,3" :=
  searchStudent_second_question_mark "amy" "5" "1" "2,3"
    (by decide) (by decide) (by decide)

/-- Resolving an id already recorded as resolved fails with
`AlreadyResolvedError`. -/
theorem resolveGate_mem_resolved
    (table : String → Option (String → Except String String))
    (st : GateState) (pid : Nat) (d : Decision) (h : pid ∈ st.resolved) :
    (resolveGate table st pid d).1 = .error .alreadyResolved := by
  unfold resolveGate
  simp [h]

/-- C8: a pending confirmation id is resolved at most once: whatever the
outcome of the first `resolve` call (deny, approve with a succeeding or a
failing executor, or a missing executor entry), any second `resolve`
call on the same id fails with `AlreadyResolvedError`. -/
theorem resolve_second_attempt_already_resolved
    (table : String → Option (String → Except String String))
    (st : GateState) (pid : Nat) (tn args : String) (d1 d2 : Decision)
    (hres : pid ∉ st.resolved) (hpend : lookupPending st pid = some (tn, args)) :
    (resolveGate table (resolveGate table st pid d1).2 pid d2).1
      = .error .alreadyResolved := by
  apply resolveGate_mem_resolved
  unfold resolveGate
  simp [hres, hpend]
  cases d1 with
  | deny => simp
  | approve =>
    cases htab : table tn with
    | none => simp
    | some f =>
      cases hf : f args <;> simp [hf]

theorem resolve_second_attempt_already_resolved_witness :
    (resolveGate demoTable (resolveGate demoTable demoState 1 .approve).2 1 .approve).1
      = .error .alreadyResolved :=
  resolve_second_attempt_already_resolved demoTable demoState 1
    "getWeatherInformation" "London" .approve .approve (by decide) rfl
